import Mathlib

/-!
Shallow embedding of the radiation_budget repository (rad_budget.py,
global_mean.py, cre.py) and verification of its specification claims.

Modelling conventions:
- Python dictionaries of flux fields become association lists
  (FluxDict); subscripting a dict is the fallible operation dget,
  which raises KeyError (PyErr.keyError) exactly when the key is absent,
  mirroring Python dict access.
- The budget/CRE formulas are element-wise numpy arithmetic over the
  latitude axis; they are modelled pointwise, with each flux field a
  single exact rational value (the spec's FluxSet explicitly admits
  scalar fields).  Exact arithmetic (ℚ) stands in for IEEE doubles;
  the claims' tolerance clauses are discharged by exact equalities.
- calc_global_mean works on whole latitude arrays, so there the fields
  are List ℝ; np.cos/np.deg2rad are Real.cos and multiplication by
  π/180.  scipy.integrate.trapz(y, x) is the trapezoidal sum
  Σ (x_{i+1}-x_i)·(y_i+y_{i+1})/2, and numpy element-wise
  multiplication with its length-1 broadcasting rule is npMul.
  A float division with zero denominator produces a non-finite numpy
  value (nan/inf), not an exception; this is GmOutcome.nonfinite.
- Python exceptions are the error side of Except PyErr: KeyError for a
  missing dict key, NameError for an undefined identifier,
  ZeroDivisionError for np.average with zero weight sum, ValueError for
  a numpy broadcast failure.
-/

/-- Python run-time errors that the embedded code can raise. -/
inductive PyErr where
  | keyError (k : String)
  | nameError (n : String)
  | zeroDivision
  | valueError
deriving DecidableEq

/-- Reducing a monadic bind on a successful Except value. -/
theorem ok_bind {ε α β : Type} (a : α) (f : α → Except ε β) :
    (bind (Except.ok a) f : Except ε β) = f a := rfl

/-- Reducing a monadic bind on a failed Except value. -/
theorem error_bind {ε α β : Type} (e : ε) (f : α → Except ε β) :
    (bind (Except.error e) f : Except ε β) = Except.error e := rfl

/-- Pure values in the Except monad are the ok constructor. -/
theorem pure_eq_ok {ε α : Type} (a : α) : (pure a : Except ε α) = Except.ok a := rfl

/-- A Python dict of named flux fields, each field modelled pointwise
by one exact rational (see the header comment). -/
abbrev FluxDict := List (String × ℚ)

/-- Python dict subscripting data[k]: the value when the key is present,
KeyError otherwise. -/
def dget (d : FluxDict) (k : String) : Except PyErr ℚ :=
  match d.lookup k with
  | some v => .ok v
  | none => .error (.keyError k)

/-- The output dictionary of compute_cre
(keys lwcre, swcre, cre, lwcre_surf, swcre_surf, cre_surf,
alwcre, aswcre, acre) as a record. -/
structure CreOut where
  lwcre : ℚ
  swcre : ℚ
  cre : ℚ
  lwcre_surf : ℚ
  swcre_surf : ℚ
  cre_surf : ℚ
  alwcre : ℚ
  aswcre : ℚ
  acre : ℚ
deriving DecidableEq

namespace EnergyBudget

/-- rad_budget.py, EnergyBudget.compute_cre (lines 124-181).
Dict reads follow the source's evaluation order. -/
def compute_cre (data_all_sky data_clear_sky : FluxDict) : Except PyErr CreOut := do
  let cs_lwut ← dget data_clear_sky "lwut"
  let as_lwut ← dget data_all_sky "lwut"
  let lwcre := cs_lwut - as_lwut
  let cs_swut ← dget data_clear_sky "swut"
  let as_swut ← dget data_all_sky "swut"
  let swcre := cs_swut - as_swut
  let cre := lwcre + swcre
  let as_lwds ← dget data_all_sky "lwds"
  let cs_lwds ← dget data_clear_sky "lwds"
  let as_lwus ← dget data_all_sky "lwus"
  let cs_lwus ← dget data_clear_sky "lwus"
  let lwcre_surf := as_lwds - cs_lwds - as_lwus + cs_lwus
  let as_swds ← dget data_all_sky "swds"
  let cs_swds ← dget data_clear_sky "swds"
  let as_swus ← dget data_all_sky "swus"
  let cs_swus ← dget data_clear_sky "swus"
  let swcre_surf := as_swds - cs_swds - as_swus + cs_swus
  let cre_surf := lwcre_surf + swcre_surf
  let alwcre := lwcre - lwcre_surf
  let aswcre := swcre - swcre_surf
  let acre := alwcre + aswcre
  return { lwcre := lwcre, swcre := swcre, cre := cre,
           lwcre_surf := lwcre_surf, swcre_surf := swcre_surf, cre_surf := cre_surf,
           alwcre := alwcre, aswcre := aswcre, acre := acre }

end EnergyBudget

namespace ComputeCloudRadiativeEffect

/-- cre.py, ComputeCloudRadiativeEffect.compute_cre (lines 63-107).
The all-sky and clear-sky fluxes live in one combined dict, the
clear-sky keys carrying a _cs suffix; the nine instance attributes the
method assigns are modelled as the returned record. -/
def compute_cre (data : FluxDict) : Except PyErr CreOut := do
  let cs_lwut ← dget data "lwut_cs"
  let as_lwut ← dget data "lwut"
  let lwcre := cs_lwut - as_lwut
  let cs_swut ← dget data "swut_cs"
  let as_swut ← dget data "swut"
  let swcre := cs_swut - as_swut
  let cre := lwcre + swcre
  let as_lwds ← dget data "lwds"
  let cs_lwds ← dget data "lwds_cs"
  let as_lwus ← dget data "lwus"
  let cs_lwus ← dget data "lwus_cs"
  let lwcre_surf := as_lwds - cs_lwds - as_lwus + cs_lwus
  let as_swds ← dget data "swds"
  let cs_swds ← dget data "swds_cs"
  let as_swus ← dget data "swus"
  let cs_swus ← dget data "swus_cs"
  let swcre_surf := as_swds - cs_swds - as_swus + cs_swus
  let cre_surf := lwcre_surf + swcre_surf
  let alwcre := lwcre - lwcre_surf
  let aswcre := swcre - swcre_surf
  let acre := alwcre + aswcre
  return { lwcre := lwcre, swcre := swcre, cre := cre,
           lwcre_surf := lwcre_surf, swcre_surf := swcre_surf, cre_surf := cre_surf,
           alwcre := alwcre, aswcre := aswcre, acre := acre }

end ComputeCloudRadiativeEffect

/-- Helper: with every required key present, EnergyBudget.compute_cre
returns exactly the record computed by the source's formulas. -/
theorem EnergyBudget_compute_cre_spec (a c : FluxDict)
    (alwut clwut aswut cswut alwds clwds alwus clwus aswds cswds aswus cswus : ℚ)
    (h1 : c.lookup "lwut" = some clwut) (h2 : a.lookup "lwut" = some alwut)
    (h3 : c.lookup "swut" = some cswut) (h4 : a.lookup "swut" = some aswut)
    (h5 : a.lookup "lwds" = some alwds) (h6 : c.lookup "lwds" = some clwds)
    (h7 : a.lookup "lwus" = some alwus) (h8 : c.lookup "lwus" = some clwus)
    (h9 : a.lookup "swds" = some aswds) (h10 : c.lookup "swds" = some cswds)
    (h11 : a.lookup "swus" = some aswus) (h12 : c.lookup "swus" = some cswus) :
    EnergyBudget.compute_cre a c = .ok
      { lwcre := clwut - alwut, swcre := cswut - aswut,
        cre := (clwut - alwut) + (cswut - aswut),
        lwcre_surf := alwds - clwds - alwus + clwus,
        swcre_surf := aswds - cswds - aswus + cswus,
        cre_surf := (alwds - clwds - alwus + clwus) + (aswds - cswds - aswus + cswus),
        alwcre := (clwut - alwut) - (alwds - clwds - alwus + clwus),
        aswcre := (cswut - aswut) - (aswds - cswds - aswus + cswus),
        acre := ((clwut - alwut) - (alwds - clwds - alwus + clwus)) +
          ((cswut - aswut) - (aswds - cswds - aswus + cswus)) } := by
  simp [EnergyBudget.compute_cre, dget, ok_bind, pure_eq_ok,
    h1, h2, h3, h4, h5, h6, h7, h8, h9, h10, h11, h12]

/-- Helper: with every required key present,
ComputeCloudRadiativeEffect.compute_cre returns exactly the record
computed by the source's formulas. -/
theorem CRE_compute_cre_spec (d : FluxDict)
    (alwut clwut aswut cswut alwds clwds alwus clwus aswds cswds aswus cswus : ℚ)
    (h1 : d.lookup "lwut_cs" = some clwut) (h2 : d.lookup "lwut" = some alwut)
    (h3 : d.lookup "swut_cs" = some cswut) (h4 : d.lookup "swut" = some aswut)
    (h5 : d.lookup "lwds" = some alwds) (h6 : d.lookup "lwds_cs" = some clwds)
    (h7 : d.lookup "lwus" = some alwus) (h8 : d.lookup "lwus_cs" = some clwus)
    (h9 : d.lookup "swds" = some aswds) (h10 : d.lookup "swds_cs" = some cswds)
    (h11 : d.lookup "swus" = some aswus) (h12 : d.lookup "swus_cs" = some cswus) :
    ComputeCloudRadiativeEffect.compute_cre d = .ok
      { lwcre := clwut - alwut, swcre := cswut - aswut,
        cre := (clwut - alwut) + (cswut - aswut),
        lwcre_surf := alwds - clwds - alwus + clwus,
        swcre_surf := aswds - cswds - aswus + cswus,
        cre_surf := (alwds - clwds - alwus + clwus) + (aswds - cswds - aswus + cswus),
        alwcre := (clwut - alwut) - (alwds - clwds - alwus + clwus),
        aswcre := (cswut - aswut) - (aswds - cswds - aswus + cswus),
        acre := ((clwut - alwut) - (alwds - clwds - alwus + clwus)) +
          ((cswut - aswut) - (aswds - cswds - aswus + cswus)) } := by
  simp [ComputeCloudRadiativeEffect.compute_cre, dget, ok_bind, pure_eq_ok,
    h1, h2, h3, h4, h5, h6, h7, h8, h9, h10, h11, h12]

/-- Radians per degree as applied by np.deg2rad / np.radians:
multiplication by pi/180. -/
noncomputable def degToRad (d : ℝ) : ℝ := d * (Real.pi / 180)

/-- The output dictionary of compute_energy_budget
(keys lwc, swa, pl, sh) as a record. -/
structure BudgetOut where
  lwc : ℚ
  swa : ℚ
  pl : ℚ
  sh : ℚ
deriving DecidableEq

open Classical in
/-- rad_budget.py / global_mean.py, area_weight_avg, applied pointwise:
np.average(data, weights=np.cos(np.radians(lat))) over a single
latitude point is data·w/w = data, except that np.average raises
ZeroDivisionError when the weight sum is zero. -/
noncomputable def area_weight_avg (data lat : ℚ) : Except PyErr ℚ :=
  if Real.cos (degToRad (lat : ℝ)) = 0 then .error .zeroDivision else .ok data

namespace EnergyBudget

/-- rad_budget.py, EnergyBudget.compute_energy_budget (lines 88-122).
Dict reads follow the source's evaluation order; the repeated reads of
lwut/swdt/swut/lat on lines 116-118 reuse the values already read
(re-reading an unmodified dict returns the same value).  The local
rad_loss_space is computed but unused in the source ("testing
magnitude"); its evaluation, and hence its possible failures, are kept. -/
noncomputable def compute_energy_budget (data : FluxDict) : Except PyErr BudgetOut := do
  let lwut ← dget data "lwut"
  let lwds ← dget data "lwds"
  let lwus ← dget data "lwus"
  let lwc := lwut + (lwds - lwus)
  let swdt ← dget data "swdt"
  let swut ← dget data "swut"
  let swds ← dget data "swds"
  let swus ← dget data "swus"
  let swa := (swdt - swut) - (swds - swus)
  let lat ← dget data "lat"
  let t1 ← area_weight_avg lwut lat
  let t2 ← area_weight_avg swdt lat
  let t3 ← area_weight_avg swut lat
  let _rad_loss_space := -t1 + t2 - t3
  let p ← dget data "p"
  let sh ← dget data "sh"
  return { lwc := lwc, swa := swa, pl := p, sh := sh }

/-- The output dictionary of atm_cs_forcing
(keys sw_toa, lw_toa, sw_surf, lw_surf) as a record. -/
structure CsForcing where
  sw_toa : ℚ
  lw_toa : ℚ
  sw_surf : ℚ
  lw_surf : ℚ
deriving DecidableEq

/-- rad_budget.py, EnergyBudget.atm_cs_forcing (lines 211-223).
Note the source computes sw_crf_toa_cs from data_all_sky['swdt']
(comment: SWDT_all = SWDT_clear), not from the clear-sky dict. -/
def atm_cs_forcing (data_all_sky data_clear_sky : FluxDict) : Except PyErr CsForcing := do
  let as_swdt ← dget data_all_sky "swdt"
  let cs_swut ← dget data_clear_sky "swut"
  let sw_crf_toa_cs := as_swdt - cs_swut
  let cs_lwds ← dget data_clear_sky "lwds"
  let cs_lwus ← dget data_clear_sky "lwus"
  let lw_crf_surf_cs := cs_lwds - cs_lwus
  let cs_swds ← dget data_clear_sky "swds"
  let cs_swus ← dget data_clear_sky "swus"
  let sw_crf_surf_cs := cs_swds - cs_swus
  let cs_lwut ← dget data_clear_sky "lwut"
  let lw_crf_toa_cs := -cs_lwut
  return { sw_toa := sw_crf_toa_cs, lw_toa := lw_crf_toa_cs,
           sw_surf := sw_crf_surf_cs, lw_surf := lw_crf_surf_cs }

/-- The output dictionary total_atmos_forcing would build on line 205
(keys sw_crf_cld, sw_crf_cs, sw_crf_all, lw_crf_cld, lw_crf_cs,
lw_crf_all, total); the source never reaches that line. -/
structure ForcingOut where
  sw_crf_cld : ℚ
  sw_crf_cs : ℚ
  sw_crf_all : ℚ
  lw_crf_cld : ℚ
  lw_crf_cs : ℚ
  lw_crf_all : ℚ
  total : ℚ
deriving DecidableEq

/-- rad_budget.py, EnergyBudget.total_atmos_forcing (lines 183-209).
After the compute_cre call on line 186 succeeds, line 189 evaluates the
bare name atm_cs_forcing, which is a class attribute, not a module-level
binding, so Python raises NameError there unconditionally (lines 192 and
203 would likewise hit the undefined names output and data). -/
def total_atmos_forcing (data_all_sky data_clear_sky _data_budget : FluxDict) :
    Except PyErr ForcingOut := do
  let _cre_output ← compute_cre data_all_sky data_clear_sky
  .error (.nameError "atm_cs_forcing")

end EnergyBudget

/-- Helper: a zipWith only consumes the prefix of its first argument of
the length of its second argument. -/
theorem zipWith_trunc_left {α β γ : Type} (f : α → β → γ) :
    ∀ (a : List α) (b : List β), List.zipWith f a b = List.zipWith f (a.take b.length) b := by
  intro a
  induction a with
  | nil => intro b; simp
  | cons x xs ih =>
    intro b
    cases b with
    | nil => simp
    | cons y ys => simp [List.zipWith, ih ys]

/-- Helper: zipWith respects pointwise equal functions. -/
theorem zipWith_ext {α β γ : Type} {f g : α → β → γ} (h : ∀ u v, f u v = g u v)
    (a : List α) (b : List β) : List.zipWith f a b = List.zipWith g a b := by
  have hfg : f = g := funext fun u => funext fun v => h u v
  rw [hfg]

/-- The latitude array converted by np.deg2rad (source: lat_rad). -/
noncomputable def latRads (lat : List ℝ) : List ℝ := lat.map degToRad

/-- The cosine weights np.cos(lat_rad) (source: weights). -/
noncomputable def weightsOf (lat : List ℝ) : List ℝ := (latRads lat).map Real.cos

/-- Averages of adjacent samples, (y_i + y_{i+1})/2, as in np.trapz. -/
noncomputable def pairAvgs (y : List ℝ) : List ℝ :=
  List.zipWith (fun u v => (u + v) / 2) y y.tail

/-- Differences of adjacent sample points, x_{i+1} - x_i, as in np.trapz. -/
noncomputable def diffs (x : List ℝ) : List ℝ :=
  List.zipWith (fun u v => v - u) x x.tail

/-- The trapezoidal-rule sum Σ (x_{i+1}-x_i)·(y_i+y_{i+1})/2 computed by
scipy.integrate.trapz on equal-length arrays. -/
noncomputable def trapzSum (y x : List ℝ) : ℝ :=
  (List.zipWith (fun u v => u * v) (pairAvgs y) (diffs x)).sum

/-- numpy element-wise multiplication of two 1-D arrays: defined for
equal lengths, broadcasting a length-1 operand across the other, and a
ValueError broadcast failure otherwise. -/
noncomputable def npMul (a b : List ℝ) : Except PyErr (List ℝ) :=
  if a.length = b.length then .ok (List.zipWith (fun u v => u * v) a b)
  else if a.length = 1 then .ok (b.map (fun v => a.headI * v))
  else if b.length = 1 then .ok (a.map (fun u => u * b.headI))
  else .error .valueError

/-- scipy.integrate.trapz(y, x) for possibly unequal lengths: numpy
multiplies diff(x) by the adjacent-pair averages of y under broadcasting
rules and sums the result. -/
noncomputable def npTrapz (y x : List ℝ) : Except PyErr ℝ :=
  (npMul (pairAvgs y) (diffs x)).map List.sum

/-- The value calc_global_mean hands back: a finite float, or the
non-finite nan/inf a float division by zero produces. -/
inductive GmOutcome where
  | val (r : ℝ)
  | nonfinite

open Classical in
/-- global_mean.py / rad_budget.py, calc_global_mean (lines 32-47 /
33-48; the two copies are identical): lat_rad = np.deg2rad(lat),
weights = np.cos(lat_rad), area_weight = trapz(weights, lat_rad),
global_integral = trapz(data*weights, lat_rad), and the quotient.
A zero area_weight makes the float quotient non-finite (nan or inf)
rather than raising. -/
noncomputable def calc_global_mean (data lat : List ℝ) : Except PyErr GmOutcome := do
  let area_weight ← npTrapz (weightsOf lat) (latRads lat)
  let dw ← npMul data (weightsOf lat)
  let global_integral ← npTrapz dw (latRads lat)
  if area_weight = 0 then pure .nonfinite else pure (.val (global_integral / area_weight))

/-- Helper: length of pairAvgs. -/
theorem pairAvgs_length (y : List ℝ) : (pairAvgs y).length = y.length - 1 := by
  simp [pairAvgs]

/-- Helper: length of diffs. -/
theorem diffs_length (x : List ℝ) : (diffs x).length = x.length - 1 := by
  simp [diffs]

/-- Helper: length of latRads. -/
theorem latRads_length (lat : List ℝ) : (latRads lat).length = lat.length := by
  simp [latRads]

/-- Helper: length of weightsOf. -/
theorem weightsOf_length (lat : List ℝ) : (weightsOf lat).length = lat.length := by
  simp [weightsOf, latRads]

/-- Helper: on equal-length arrays npTrapz is the plain trapezoidal sum. -/
theorem npTrapz_of_eq_length (y x : List ℝ) (h : y.length = x.length) :
    npTrapz y x = .ok (trapzSum y x) := by
  unfold npTrapz npMul trapzSum
  rw [if_pos (by rw [pairAvgs_length, diffs_length, h])]
  rfl

/-- Helper: the prefix of a reversed list of the length of the reversed
dropLast is the reversed tail. -/
theorem tail_of_reverse_take (l : List ℝ) :
    l.reverse.take l.dropLast.reverse.length = l.tail.reverse := by
  rw [List.length_reverse, List.length_dropLast, List.take_reverse]
  cases l with
  | nil => simp
  | cons x xs => simp

/-- Helper: adjacent-pair averages commute with list reversal. -/
theorem pairAvgs_reverse (l : List ℝ) : pairAvgs l.reverse = (pairAvgs l).reverse := by
  unfold pairAvgs
  rw [List.tail_reverse_eq_reverse_dropLast]
  rw [zipWith_trunc_left _ l.reverse l.dropLast.reverse, tail_of_reverse_take]
  rw [← List.reverse_zipWith (by simp [List.length_tail])]
  rw [zipWith_trunc_left _ l l.tail, List.length_tail, ← List.dropLast_eq_take]
  rw [List.zipWith_comm_of_comm _ (fun u v => by ring) l.dropLast l.tail]

/-- Helper: adjacent differences of a reversed list are the reversed
negated differences. -/
theorem diffs_reverse (l : List ℝ) :
    diffs l.reverse = ((diffs l).map (fun v => -v)).reverse := by
  unfold diffs
  rw [List.tail_reverse_eq_reverse_dropLast]
  rw [zipWith_trunc_left _ l.reverse l.dropLast.reverse, tail_of_reverse_take]
  rw [← List.reverse_zipWith (by simp [List.length_tail])]
  rw [zipWith_trunc_left (fun u v => v - u) l l.tail, List.length_tail,
    ← List.dropLast_eq_take]
  rw [List.map_zipWith]
  rw [List.zipWith_comm (fun u v => v - u) l.tail l.dropLast]
  exact congrArg List.reverse
    (zipWith_ext (fun u v => by ring : ∀ u v : ℝ, u - v = -(v - u)) _ _)

/-- Helper: reversing both arrays negates the trapezoidal sum. -/
theorem trapzSum_reverse (y x : List ℝ) (h : y.length = x.length) :
    trapzSum y.reverse x.reverse = -trapzSum y x := by
  unfold trapzSum
  rw [pairAvgs_reverse, diffs_reverse]
  rw [← List.reverse_zipWith (by simp [pairAvgs_length, diffs_length, h])]
  rw [List.sum_reverse]
  rw [List.zipWith_map_right]
  rw [zipWith_ext (fun u v => by ring : ∀ u v : ℝ, u * -v = -(u * v))]
  rw [show List.zipWith (fun u v : ℝ => -(u * v)) (pairAvgs y) (diffs x) =
      (List.zipWith (fun u v => u * v) (pairAvgs y) (diffs x)).map (fun v => -v) from
    (List.map_zipWith _ _ _ _).symm]
  exact (List.sum_neg _).symm

/-- Helper: element-wise product of a constant list with w scales w. -/
theorem zipWith_mul_const (c : ℝ) :
    ∀ (d w : List ℝ), d.length = w.length → (∀ v ∈ d, v = c) →
      List.zipWith (fun u v => u * v) d w = w.map (fun v => c * v) := by
  intro d
  induction d with
  | nil =>
    intro w h _
    cases w with
    | nil => simp
    | cons a b => simp at h
  | cons x xs ih =>
    intro w h hc
    cases w with
    | nil => simp at h
    | cons a b =>
      simp only [List.zipWith, List.map]
      rw [hc x (by simp), ih b (by simpa using h) (fun v hv => hc v (by simp [hv]))]

/-- Helper: map commutes with tail. -/
theorem map_tail_comm {α β : Type} (f : α → β) (l : List α) :
    (l.map f).tail = l.tail.map f := by
  cases l <;> simp

/-- Helper: adjacent-pair averages commute with scaling. -/
theorem pairAvgs_map_mul (c : ℝ) (w : List ℝ) :
    pairAvgs (w.map (fun v => c * v)) = (pairAvgs w).map (fun v => c * v) := by
  unfold pairAvgs
  rw [map_tail_comm, List.zipWith_map, List.map_zipWith]
  exact zipWith_ext (fun u v => by ring) _ _

/-- Helper: the trapezoidal sum is linear in a scaling of the samples. -/
theorem trapzSum_const_mul (c : ℝ) (w x : List ℝ) :
    trapzSum (w.map (fun v => c * v)) x = c * trapzSum w x := by
  unfold trapzSum
  rw [pairAvgs_map_mul, List.zipWith_map_left]
  rw [zipWith_ext (fun u v => by ring : ∀ u v : ℝ, c * u * v = c * (u * v))]
  rw [show List.zipWith (fun u v : ℝ => c * (u * v)) (pairAvgs w) (diffs x) =
      (List.zipWith (fun u v => u * v) (pairAvgs w) (diffs x)).map (fun v => c * v) from
    (List.map_zipWith _ _ _ _).symm]
  simpa using List.sum_map_mul_left _ (fun v => v) c

/-- Helper: degToRad of 0 degrees. -/
theorem degToRad_zero : degToRad 0 = 0 := by unfold degToRad; ring

/-- Helper: degToRad of 90 degrees. -/
theorem degToRad_ninety : degToRad 90 = Real.pi / 2 := by unfold degToRad; ring

/-- Helper: the cosine weights of the latitude grid [0, 90]. -/
theorem weights_01 : weightsOf [0, 90] = [1, 0] := by
  simp [weightsOf, latRads, degToRad_zero, degToRad_ninety, Real.cos_pi_div_two]

/-- Helper: the radian values of the latitude grid [0, 90]. -/
theorem lr_01 : latRads [0, 90] = [0, Real.pi / 2] := by
  simp [latRads, degToRad_zero, degToRad_ninety]

/-- Helper: the area weight of the latitude grid [0, 90] is pi/4. -/
theorem area_01 : trapzSum (weightsOf [0, 90]) (latRads [0, 90]) = Real.pi / 4 := by
  rw [weights_01, lr_01]
  simp [trapzSum, pairAvgs, diffs]
  ring

/-- Helper: the area weight of the latitude grid [0, 90] is nonzero. -/
theorem area_01_ne : trapzSum (weightsOf [0, 90]) (latRads [0, 90]) ≠ 0 := by
  rw [area_01]
  positivity

/-- Decidable equality of Except values, for evaluating the embedding at
concrete inputs. -/
instance {ε α : Type} [DecidableEq ε] [DecidableEq α] : DecidableEq (Except ε α) := by
  intro x y
  cases x <;> cases y
  case error.error e f =>
    exact if h : e = f then .isTrue (by rw [h]) else .isFalse (by intro hh; cases hh; exact h rfl)
  case error.ok e a => exact .isFalse (by intro hh; cases hh)
  case ok.error a e => exact .isFalse (by intro hh; cases hh)
  case ok.ok a b =>
    exact if h : a = b then .isTrue (by rw [h]) else .isFalse (by intro hh; cases hh; exact h rfl)

/-- Python computations over an explicit mutable store σ: the frame
section below re-runs the embedded functions with every dict/array
access threaded through the store, to state that they never write to it. -/
abbrev PyM (σ α : Type) := StateT σ (Except PyErr) α

/-- A store-threaded computation preserves the store: whenever it
succeeds, the final store equals the initial one. -/
def Preserves {σ α : Type} (m : PyM σ α) : Prop :=
  ∀ s a t, m.run s = .ok (a, t) → t = s

/-- Helper: pure values preserve the store. -/
theorem preserves_pure {σ α : Type} (x : α) : Preserves (σ := σ) (pure x) := by
  intro s a t h
  simp only [StateT.run, pure, StateT.pure, Except.pure] at h
  cases h
  rfl

/-- Helper: a bind of store-preserving computations preserves the store. -/
theorem preserves_bind {σ α β : Type} (m : PyM σ α) (f : α → PyM σ β)
    (hm : Preserves m) (hf : ∀ a, Preserves (f a)) : Preserves (bind m f) := by
  intro s b t h
  simp only [StateT.run, bind, StateT.bind] at h
  cases hm2 : m s with
  | error e => rw [hm2] at h; simp [Except.bind] at h
  | ok p =>
    rw [hm2] at h
    simp only [Except.bind] at h
    have h1 : p.2 = s := hm s p.1 p.2 (by simpa [StateT.run] using hm2)
    have h2 : t = p.2 := hf p.1 p.2 b t (by simpa [StateT.run] using h)
    rw [h2, h1]

/-- Helper: a lifted pure Except computation preserves the store. -/
def liftE {σ α : Type} (e : Except PyErr α) : PyM σ α := fun s => e.map (fun a => (a, s))

/-- Helper: liftE preserves the store. -/
theorem preserves_liftE {σ α : Type} (e : Except PyErr α) : Preserves (liftE (σ := σ) e) := by
  intro s a t h
  simp only [StateT.run, liftE] at h
  cases e with
  | error f => cases h
  | ok v => cases h; rfl

/-- Python dict subscripting of the all-sky dict in a two-dict store:
a read-only store operation. -/
def readAllSky (k : String) : PyM (FluxDict × FluxDict) ℚ := fun s =>
  match (s.1).lookup k with
  | some v => .ok (v, s)
  | none => .error (.keyError k)

/-- Python dict subscripting of the clear-sky dict in a two-dict store:
a read-only store operation. -/
def readClearSky (k : String) : PyM (FluxDict × FluxDict) ℚ := fun s =>
  match (s.2).lookup k with
  | some v => .ok (v, s)
  | none => .error (.keyError k)

/-- Helper: reading the all-sky dict preserves the store. -/
theorem preserves_readAllSky (k : String) : Preserves (readAllSky k) := by
  intro s a t h
  simp only [StateT.run] at h
  unfold readAllSky at h
  cases hl : (s.1).lookup k <;> rw [hl] at h
  · cases h
  · cases h
    rfl

/-- Helper: reading the clear-sky dict preserves the store. -/
theorem preserves_readClearSky (k : String) : Preserves (readClearSky k) := by
  intro s a t h
  simp only [StateT.run] at h
  unfold readClearSky at h
  cases hl : (s.2).lookup k <;> rw [hl] at h
  · cases h
  · cases h
    rfl

/-- Python dict subscripting in a single-dict store: a read-only store
operation. -/
def readKey (k : String) : PyM FluxDict ℚ := fun s =>
  match s.lookup k with
  | some v => .ok (v, s)
  | none => .error (.keyError k)

/-- Helper: reading the single dict preserves the store. -/
theorem preserves_readKey (k : String) : Preserves (readKey k) := by
  intro s a t h
  simp only [StateT.run] at h
  unfold readKey at h
  cases hl : s.lookup k <;> rw [hl] at h
  · cases h
  · cases h
    rfl

/-- Reading the field array of a (field, latitude) store: read-only. -/
def readData : PyM (List ℝ × List ℝ) (List ℝ) := fun s => .ok (s.1, s)

/-- Reading the latitude array of a (field, latitude) store: read-only. -/
def readLat : PyM (List ℝ × List ℝ) (List ℝ) := fun s => .ok (s.2, s)

/-- Helper: reading the field array preserves the store. -/
theorem preserves_readData : Preserves readData := by
  intro s a t h
  simp only [StateT.run, readData] at h
  cases h
  rfl

/-- Helper: reading the latitude array preserves the store. -/
theorem preserves_readLat : Preserves readLat := by
  intro s a t h
  simp only [StateT.run, readLat] at h
  cases h
  rfl

/-- Store-threaded rerun of EnergyBudget.compute_cre: the store holds
the two input dicts (all-sky, clear-sky) and every source line either
reads from them or computes with already-read values; there is no store
write. -/
def compute_cre_st : PyM (FluxDict × FluxDict) CreOut := do
  let cs_lwut ← readClearSky "lwut"
  let as_lwut ← readAllSky "lwut"
  let lwcre := cs_lwut - as_lwut
  let cs_swut ← readClearSky "swut"
  let as_swut ← readAllSky "swut"
  let swcre := cs_swut - as_swut
  let cre := lwcre + swcre
  let as_lwds ← readAllSky "lwds"
  let cs_lwds ← readClearSky "lwds"
  let as_lwus ← readAllSky "lwus"
  let cs_lwus ← readClearSky "lwus"
  let lwcre_surf := as_lwds - cs_lwds - as_lwus + cs_lwus
  let as_swds ← readAllSky "swds"
  let cs_swds ← readClearSky "swds"
  let as_swus ← readAllSky "swus"
  let cs_swus ← readClearSky "swus"
  let swcre_surf := as_swds - cs_swds - as_swus + cs_swus
  let cre_surf := lwcre_surf + swcre_surf
  let alwcre := lwcre - lwcre_surf
  let aswcre := swcre - swcre_surf
  let acre := alwcre + aswcre
  return { lwcre := lwcre, swcre := swcre, cre := cre,
           lwcre_surf := lwcre_surf, swcre_surf := swcre_surf, cre_surf := cre_surf,
           alwcre := alwcre, aswcre := aswcre, acre := acre }

/-- Store-threaded rerun of EnergyBudget.compute_energy_budget over its
input dict; area_weight_avg does not touch the dict and is lifted. -/
noncomputable def compute_energy_budget_st : PyM FluxDict BudgetOut := do
  let lwut ← readKey "lwut"
  let lwds ← readKey "lwds"
  let lwus ← readKey "lwus"
  let lwc := lwut + (lwds - lwus)
  let swdt ← readKey "swdt"
  let swut ← readKey "swut"
  let swds ← readKey "swds"
  let swus ← readKey "swus"
  let swa := (swdt - swut) - (swds - swus)
  let lat ← readKey "lat"
  let t1 ← liftE (area_weight_avg lwut lat)
  let t2 ← liftE (area_weight_avg swdt lat)
  let t3 ← liftE (area_weight_avg swut lat)
  let _rad_loss_space := -t1 + t2 - t3
  let p ← readKey "p"
  let sh ← readKey "sh"
  return { lwc := lwc, swa := swa, pl := p, sh := sh }

/-- Store-threaded rerun of calc_global_mean over the (field, latitude)
store; every numpy operation (deg2rad, cos, trapz, multiplication)
allocates a fresh array and is lifted as a pure computation. -/
noncomputable def calc_global_mean_st : PyM (List ℝ × List ℝ) GmOutcome := do
  let data ← readData
  let lat ← readLat
  let area_weight ← liftE (npTrapz (weightsOf lat) (latRads lat))
  let dw ← liftE (npMul data (weightsOf lat))
  let global_integral ← liftE (npTrapz dw (latRads lat))
  if area_weight = 0 then pure .nonfinite else pure (.val (global_integral / area_weight))

/-- Claim C1: for every pair of input dictionaries all_sky and clear_sky
containing the keys swut, swdt, swus, swds, lwut, lwus, lwds, compute_cre
returns a result whose fields equal the normative formulas
lwcre = clear_sky.lwut - all_sky.lwut, swcre = clear_sky.swut - all_sky.swut,
lwcre_surf = (all_sky.lwds - clear_sky.lwds) - (all_sky.lwus - clear_sky.lwus),
swcre_surf = (all_sky.swds - clear_sky.swds) - (all_sky.swus - clear_sky.swus),
alwcre = lwcre - lwcre_surf, aswcre = swcre - swcre_surf; part one for the
two-dict EnergyBudget.compute_cre, part two for the combined-dict
ComputeCloudRadiativeEffect.compute_cre. -/
theorem claim_c1_compute_cre_formulas :
    (∀ (a c : FluxDict)
      (alwut clwut aswut cswut aswdt cswdt alwds clwds alwus clwus aswds cswds aswus cswus : ℚ),
      a.lookup "lwut" = some alwut → c.lookup "lwut" = some clwut →
      a.lookup "swut" = some aswut → c.lookup "swut" = some cswut →
      a.lookup "swdt" = some aswdt → c.lookup "swdt" = some cswdt →
      a.lookup "lwds" = some alwds → c.lookup "lwds" = some clwds →
      a.lookup "lwus" = some alwus → c.lookup "lwus" = some clwus →
      a.lookup "swds" = some aswds → c.lookup "swds" = some cswds →
      a.lookup "swus" = some aswus → c.lookup "swus" = some cswus →
      ∃ r : CreOut, EnergyBudget.compute_cre a c = .ok r ∧
        r.lwcre = clwut - alwut ∧
        r.swcre = cswut - aswut ∧
        r.lwcre_surf = (alwds - clwds) - (alwus - clwus) ∧
        r.swcre_surf = (aswds - cswds) - (aswus - cswus) ∧
        r.alwcre = r.lwcre - r.lwcre_surf ∧
        r.aswcre = r.swcre - r.swcre_surf) ∧
    (∀ (d : FluxDict)
      (alwut clwut aswut cswut aswdt cswdt alwds clwds alwus clwus aswds cswds aswus cswus : ℚ),
      d.lookup "lwut" = some alwut → d.lookup "lwut_cs" = some clwut →
      d.lookup "swut" = some aswut → d.lookup "swut_cs" = some cswut →
      d.lookup "swdt" = some aswdt → d.lookup "swdt_cs" = some cswdt →
      d.lookup "lwds" = some alwds → d.lookup "lwds_cs" = some clwds →
      d.lookup "lwus" = some alwus → d.lookup "lwus_cs" = some clwus →
      d.lookup "swds" = some aswds → d.lookup "swds_cs" = some cswds →
      d.lookup "swus" = some aswus → d.lookup "swus_cs" = some cswus →
      ∃ r : CreOut, ComputeCloudRadiativeEffect.compute_cre d = .ok r ∧
        r.lwcre = clwut - alwut ∧
        r.swcre = cswut - aswut ∧
        r.lwcre_surf = (alwds - clwds) - (alwus - clwus) ∧
        r.swcre_surf = (aswds - cswds) - (aswus - cswus) ∧
        r.alwcre = r.lwcre - r.lwcre_surf ∧
        r.aswcre = r.swcre - r.swcre_surf) := by
  constructor
  · intro a c alwut clwut aswut cswut aswdt cswdt alwds clwds alwus clwus aswds cswds aswus cswus
      h1 h2 h3 h4 h5 h6 h7 h8 h9 h10 h11 h12 h13 h14
    exact ⟨_, EnergyBudget_compute_cre_spec a c
        alwut clwut aswut cswut alwds clwds alwus clwus aswds cswds aswus cswus
        h2 h1 h4 h3 h7 h8 h9 h10 h11 h12 h13 h14,
      rfl, rfl, by ring, by ring, rfl, rfl⟩
  · intro d alwut clwut aswut cswut aswdt cswdt alwds clwds alwus clwus aswds cswds aswus cswus
      h1 h2 h3 h4 h5 h6 h7 h8 h9 h10 h11 h12 h13 h14
    exact ⟨_, CRE_compute_cre_spec d
        alwut clwut aswut cswut alwds clwds alwus clwus aswds cswds aswus cswus
        h2 h1 h4 h3 h7 h8 h9 h10 h11 h12 h13 h14,
      rfl, rfl, by ring, by ring, rfl, rfl⟩

/-- Witness for C1, both parts evaluated on concrete seven-key dicts. -/
theorem claim_c1_compute_cre_formulas_witness :
    (∃ r : CreOut, EnergyBudget.compute_cre
        [("lwut", 239), ("swut", 150), ("swdt", 340), ("lwds", 340),
         ("lwus", 390), ("swds", 190), ("swus", 20)]
        [("lwut", 269), ("swut", 100), ("swdt", 340), ("lwds", 320),
         ("lwus", 392), ("swds", 210), ("swus", 25)] = .ok r ∧
      r.lwcre = 269 - 239 ∧
      r.swcre = 100 - 150 ∧
      r.lwcre_surf = (340 - 320) - (390 - 392) ∧
      r.swcre_surf = (190 - 210) - (20 - 25) ∧
      r.alwcre = r.lwcre - r.lwcre_surf ∧
      r.aswcre = r.swcre - r.swcre_surf) ∧
    (∃ r : CreOut, ComputeCloudRadiativeEffect.compute_cre
        [("lwut", 239), ("swut", 150), ("swdt", 340), ("lwds", 340),
         ("lwus", 390), ("swds", 190), ("swus", 20),
         ("lwut_cs", 269), ("swut_cs", 100), ("swdt_cs", 340), ("lwds_cs", 320),
         ("lwus_cs", 392), ("swds_cs", 210), ("swus_cs", 25)] = .ok r ∧
      r.lwcre = 269 - 239 ∧
      r.swcre = 100 - 150 ∧
      r.lwcre_surf = (340 - 320) - (390 - 392) ∧
      r.swcre_surf = (190 - 210) - (20 - 25) ∧
      r.alwcre = r.lwcre - r.lwcre_surf ∧
      r.aswcre = r.swcre - r.swcre_surf) :=
  ⟨claim_c1_compute_cre_formulas.1 _ _ 239 269 150 100 340 340 340 320 390 392 190 210 20 25
      (by decide) (by decide) (by decide) (by decide) (by decide) (by decide) (by decide)
      (by decide) (by decide) (by decide) (by decide) (by decide) (by decide) (by decide),
   claim_c1_compute_cre_formulas.2 _ 239 269 150 100 340 340 340 320 390 392 190 210 20 25
      (by decide) (by decide) (by decide) (by decide) (by decide) (by decide) (by decide)
      (by decide) (by decide) (by decide) (by decide) (by decide) (by decide) (by decide)⟩

/-- Claim C2: for every valid pair of input FluxSets (all required keys
present), the result of compute_cre satisfies cre = lwcre + swcre,
cre_surf = lwcre_surf + swcre_surf, and acre = alwcre + aswcre =
cre - cre_surf, exactly in exact arithmetic; part one for
EnergyBudget.compute_cre, part two for
ComputeCloudRadiativeEffect.compute_cre. -/
theorem claim_c2_compute_cre_identities :
    (∀ (a c : FluxDict)
      (alwut clwut aswut cswut alwds clwds alwus clwus aswds cswds aswus cswus : ℚ),
      a.lookup "lwut" = some alwut → c.lookup "lwut" = some clwut →
      a.lookup "swut" = some aswut → c.lookup "swut" = some cswut →
      a.lookup "lwds" = some alwds → c.lookup "lwds" = some clwds →
      a.lookup "lwus" = some alwus → c.lookup "lwus" = some clwus →
      a.lookup "swds" = some aswds → c.lookup "swds" = some cswds →
      a.lookup "swus" = some aswus → c.lookup "swus" = some cswus →
      ∃ r : CreOut, EnergyBudget.compute_cre a c = .ok r ∧
        r.cre = r.lwcre + r.swcre ∧
        r.cre_surf = r.lwcre_surf + r.swcre_surf ∧
        r.acre = r.alwcre + r.aswcre ∧
        r.acre = r.cre - r.cre_surf) ∧
    (∀ (d : FluxDict)
      (alwut clwut aswut cswut alwds clwds alwus clwus aswds cswds aswus cswus : ℚ),
      d.lookup "lwut" = some alwut → d.lookup "lwut_cs" = some clwut →
      d.lookup "swut" = some aswut → d.lookup "swut_cs" = some cswut →
      d.lookup "lwds" = some alwds → d.lookup "lwds_cs" = some clwds →
      d.lookup "lwus" = some alwus → d.lookup "lwus_cs" = some clwus →
      d.lookup "swds" = some aswds → d.lookup "swds_cs" = some cswds →
      d.lookup "swus" = some aswus → d.lookup "swus_cs" = some cswus →
      ∃ r : CreOut, ComputeCloudRadiativeEffect.compute_cre d = .ok r ∧
        r.cre = r.lwcre + r.swcre ∧
        r.cre_surf = r.lwcre_surf + r.swcre_surf ∧
        r.acre = r.alwcre + r.aswcre ∧
        r.acre = r.cre - r.cre_surf) := by
  constructor
  · intro a c alwut clwut aswut cswut alwds clwds alwus clwus aswds cswds aswus cswus
      h1 h2 h3 h4 h5 h6 h7 h8 h9 h10 h11 h12
    exact ⟨_, EnergyBudget_compute_cre_spec a c
        alwut clwut aswut cswut alwds clwds alwus clwus aswds cswds aswus cswus
        h2 h1 h4 h3 h5 h6 h7 h8 h9 h10 h11 h12,
      rfl, rfl, rfl, by ring⟩
  · intro d alwut clwut aswut cswut alwds clwds alwus clwus aswds cswds aswus cswus
      h1 h2 h3 h4 h5 h6 h7 h8 h9 h10 h11 h12
    exact ⟨_, CRE_compute_cre_spec d
        alwut clwut aswut cswut alwds clwds alwus clwus aswds cswds aswus cswus
        h2 h1 h4 h3 h5 h6 h7 h8 h9 h10 h11 h12,
      rfl, rfl, rfl, by ring⟩

/-- Witness for C2, both parts evaluated on concrete dicts. -/
theorem claim_c2_compute_cre_identities_witness :
    (∃ r : CreOut, EnergyBudget.compute_cre
        [("lwut", 239), ("swut", 150), ("swdt", 340), ("lwds", 340),
         ("lwus", 390), ("swds", 190), ("swus", 20)]
        [("lwut", 269), ("swut", 100), ("swdt", 340), ("lwds", 320),
         ("lwus", 392), ("swds", 210), ("swus", 25)] = .ok r ∧
      r.cre = r.lwcre + r.swcre ∧
      r.cre_surf = r.lwcre_surf + r.swcre_surf ∧
      r.acre = r.alwcre + r.aswcre ∧
      r.acre = r.cre - r.cre_surf) ∧
    (∃ r : CreOut, ComputeCloudRadiativeEffect.compute_cre
        [("lwut", 239), ("swut", 150), ("swdt", 340), ("lwds", 340),
         ("lwus", 390), ("swds", 190), ("swus", 20),
         ("lwut_cs", 269), ("swut_cs", 100), ("swdt_cs", 340), ("lwds_cs", 320),
         ("lwus_cs", 392), ("swds_cs", 210), ("swus_cs", 25)] = .ok r ∧
      r.cre = r.lwcre + r.swcre ∧
      r.cre_surf = r.lwcre_surf + r.swcre_surf ∧
      r.acre = r.alwcre + r.aswcre ∧
      r.acre = r.cre - r.cre_surf) :=
  ⟨claim_c2_compute_cre_identities.1 _ _ 239 269 150 100 340 320 390 392 190 210 20 25
      (by decide) (by decide) (by decide) (by decide) (by decide) (by decide)
      (by decide) (by decide) (by decide) (by decide) (by decide) (by decide),
   claim_c2_compute_cre_identities.2 _ 239 269 150 100 340 320 390 392 190 210 20 25
      (by decide) (by decide) (by decide) (by decide) (by decide) (by decide)
      (by decide) (by decide) (by decide) (by decide) (by decide) (by decide)⟩

/-- Claim C7: whenever the all-sky input lacks the key lwut, compute_cre
fails with a missing-field error (KeyError) and returns no partial
result; part one for the two-dict EnergyBudget.compute_cre (the error
names lwut itself), part two for the combined-dict
ComputeCloudRadiativeEffect.compute_cre, where the lwut_cs read on the
same source line may fail first. -/
theorem claim_c7_missing_lwut_fails :
    (∀ (a c : FluxDict), a.lookup "lwut" = none →
      EnergyBudget.compute_cre a c = .error (.keyError "lwut")) ∧
    (∀ (d : FluxDict), d.lookup "lwut" = none →
      ComputeCloudRadiativeEffect.compute_cre d = .error (.keyError "lwut") ∨
      ComputeCloudRadiativeEffect.compute_cre d = .error (.keyError "lwut_cs")) := by
  constructor
  · intro a c h
    cases hc : c.lookup "lwut" <;>
      simp [EnergyBudget.compute_cre, dget, ok_bind, error_bind, h, hc]
  · intro d h
    cases hc : d.lookup "lwut_cs"
    · right
      simp [ComputeCloudRadiativeEffect.compute_cre, dget, ok_bind, error_bind, h, hc]
    · left
      simp [ComputeCloudRadiativeEffect.compute_cre, dget, ok_bind, error_bind, h, hc]

/-- Witness for C7: concrete dicts lacking lwut. -/
theorem claim_c7_missing_lwut_fails_witness :
    EnergyBudget.compute_cre [("swut", 150)]
        [("lwut", 269), ("swut", 100)] = .error (.keyError "lwut") ∧
    (ComputeCloudRadiativeEffect.compute_cre [("lwut_cs", 269), ("swut", 150)] =
        .error (.keyError "lwut") ∨
      ComputeCloudRadiativeEffect.compute_cre [("lwut_cs", 269), ("swut", 150)] =
        .error (.keyError "lwut_cs")) :=
  ⟨claim_c7_missing_lwut_fails.1 [("swut", 150)] [("lwut", 269), ("swut", 100)] (by decide),
   claim_c7_missing_lwut_fails.2 [("lwut_cs", 269), ("swut", 150)] (by decide)⟩

/-- Claim C3 (code bug): on any well-formed inputs, total_atmos_forcing
never produces a total to compare against an energy-budget net: after
the compute_cre call succeeds it evaluates the undefined module-level
name atm_cs_forcing and raises NameError, so the claimed cross-path
agreement is unsatisfiable in the code as written (and
compute_energy_budget returns no net field at all). -/
theorem claim_c3_total_atmos_forcing_name_error :
    EnergyBudget.total_atmos_forcing
      [("lwut", 239), ("swut", 150), ("swdt", 340), ("lwds", 340),
       ("lwus", 390), ("swds", 190), ("swus", 20)]
      [("lwut", 269), ("swut", 100), ("swdt", 340), ("lwds", 320),
       ("lwus", 392), ("swds", 210), ("swus", 25)]
      [("p", 3), ("sh", 20)] = .error (.nameError "atm_cs_forcing") := by
  decide

/-- Helper: with every key present, compute_energy_budget returns the
record the source builds, with pl the raw value stored under p. -/
theorem compute_energy_budget_spec (data : FluxDict)
    (lwut lwds lwus swdt swut swds swus lat p sh : ℚ)
    (h1 : data.lookup "lwut" = some lwut) (h2 : data.lookup "lwds" = some lwds)
    (h3 : data.lookup "lwus" = some lwus) (h4 : data.lookup "swdt" = some swdt)
    (h5 : data.lookup "swut" = some swut) (h6 : data.lookup "swds" = some swds)
    (h7 : data.lookup "swus" = some swus) (h8 : data.lookup "lat" = some lat)
    (h9 : data.lookup "p" = some p) (h10 : data.lookup "sh" = some sh)
    (hcos : Real.cos (degToRad (lat : ℝ)) ≠ 0) :
    EnergyBudget.compute_energy_budget data = .ok
      { lwc := lwut + (lwds - lwus), swa := (swdt - swut) - (swds - swus),
        pl := p, sh := sh } := by
  simp [EnergyBudget.compute_energy_budget, dget, area_weight_avg, ok_bind, pure_eq_ok,
    h1, h2, h3, h4, h5, h6, h7, h8, h9, h10, hcos]

/-- Helper: the pointwise area_weight_avg weight at latitude 0 degrees
is cos 0 = 1, which is nonzero. -/
theorem cos_degToRad_zero_ne : Real.cos (degToRad ((0 : ℚ) : ℝ)) ≠ 0 := by
  have h0 : ((0 : ℚ) : ℝ) = 0 := by norm_num
  rw [h0, degToRad_zero, Real.cos_zero]
  norm_num

/-- Claim C5 counterexample: with only p = 3 supplied as the moisture
input (there are no lh, rain or snow reads anywhere in the code), the
returned moisture term pl is the raw 3, not (3/86400)·2.50e6 ≈ 86.8:
no latent-heat conversion exists in compute_energy_budget. -/
theorem claim_c5_pl_counterexample :
    EnergyBudget.compute_energy_budget
      [("lwut", 240), ("lwds", 340), ("lwus", 390), ("swdt", 340), ("swut", 100),
       ("swds", 190), ("swus", 20), ("lat", 0), ("p", 3), ("sh", 20)] =
      .ok { lwc := 190, swa := 70, pl := 3, sh := 20 } ∧
    (3 : ℚ) ≠ 3 / 86400 * 2500000 := by
  constructor
  · have h := compute_energy_budget_spec
      [("lwut", 240), ("lwds", 340), ("lwus", 390), ("swdt", 340), ("swut", 100),
       ("swds", 190), ("swus", 20), ("lat", 0), ("p", 3), ("sh", 20)]
      240 340 390 340 100 190 20 0 3 20
      (by decide) (by decide) (by decide) (by decide) (by decide)
      (by decide) (by decide) (by decide) (by decide) (by decide)
      cos_degToRad_zero_ne
    rw [h]
    norm_num
  · norm_num

/-- Claim C5 as amended: compute_energy_budget returns the moisture term
pl exactly as stored under the key p, with no division by 86400 and no
latent-heat constant applied (the code documents its inputs, precip
included, as already being fluxes in W/m²); there is no lh, rain, or
snow fallback in the code. -/
theorem claim_c5_pl_raw_amended (data : FluxDict)
    (lwut lwds lwus swdt swut swds swus lat p sh : ℚ)
    (h1 : data.lookup "lwut" = some lwut) (h2 : data.lookup "lwds" = some lwds)
    (h3 : data.lookup "lwus" = some lwus) (h4 : data.lookup "swdt" = some swdt)
    (h5 : data.lookup "swut" = some swut) (h6 : data.lookup "swds" = some swds)
    (h7 : data.lookup "swus" = some swus) (h8 : data.lookup "lat" = some lat)
    (h9 : data.lookup "p" = some p) (h10 : data.lookup "sh" = some sh)
    (hcos : Real.cos (degToRad (lat : ℝ)) ≠ 0) :
    ∃ b : BudgetOut, EnergyBudget.compute_energy_budget data = .ok b ∧ b.pl = p :=
  ⟨_, compute_energy_budget_spec data lwut lwds lwus swdt swut swds swus lat p sh
      h1 h2 h3 h4 h5 h6 h7 h8 h9 h10 hcos, rfl⟩

/-- Witness for the amended C5 on a concrete ten-key dict. -/
theorem claim_c5_pl_raw_amended_witness :
    ∃ b : BudgetOut, EnergyBudget.compute_energy_budget
      [("lwut", 239), ("lwds", 345), ("lwus", 398), ("swdt", 341), ("swut", 102),
       ("swds", 188), ("swus", 23), ("lat", 0), ("p", 5), ("sh", 17)] = .ok b ∧
    b.pl = 5 :=
  claim_c5_pl_raw_amended _ 239 345 398 341 102 188 23 0 5 17
    (by decide) (by decide) (by decide) (by decide) (by decide)
    (by decide) (by decide) (by decide) (by decide) (by decide)
    cos_degToRad_zero_ne

/-- Helper: with every key present, atm_cs_forcing returns the record
the source builds; note sw_toa comes from the all-sky swdt. -/
theorem atm_cs_forcing_spec (a c : FluxDict)
    (aswdt cswut clwds clwus cswds cswus clwut : ℚ)
    (h1 : a.lookup "swdt" = some aswdt) (h2 : c.lookup "swut" = some cswut)
    (h3 : c.lookup "lwds" = some clwds) (h4 : c.lookup "lwus" = some clwus)
    (h5 : c.lookup "swds" = some cswds) (h6 : c.lookup "swus" = some cswus)
    (h7 : c.lookup "lwut" = some clwut) :
    EnergyBudget.atm_cs_forcing a c = .ok
      { sw_toa := aswdt - cswut, lw_toa := -clwut,
        sw_surf := cswds - cswus, lw_surf := clwds - clwus } := by
  simp [EnergyBudget.atm_cs_forcing, dget, ok_bind, pure_eq_ok,
    h1, h2, h3, h4, h5, h6, h7]

/-- Claim C9 counterexample: with all_sky.swdt = 100 and
clear_sky.swdt = 90, clear_sky.swut = 20, the code computes
sw_toa = 100 - 20 = 80, not the claimed clear_sky-only value
90 - 20 = 70: the clear-sky TOA shortwave forcing is not computed from
clear-sky fields alone. -/
theorem claim_c9_sw_toa_counterexample :
    EnergyBudget.atm_cs_forcing [("swdt", 100)]
      [("swdt", 90), ("swut", 20), ("lwds", 320), ("lwus", 392), ("swds", 210),
       ("swus", 25), ("lwut", 269)] =
      .ok { sw_toa := 100 - 20, lw_toa := -269, sw_surf := 210 - 25, lw_surf := 320 - 392 } ∧
    (100 : ℚ) - 20 ≠ 90 - 20 :=
  ⟨atm_cs_forcing_spec [("swdt", 100)]
      [("swdt", 90), ("swut", 20), ("lwds", 320), ("lwus", 392), ("swds", 210),
       ("swus", 25), ("lwut", 269)] 100 20 320 392 210 25 269
      (by decide) (by decide) (by decide) (by decide) (by decide) (by decide) (by decide),
   by norm_num⟩

/-- Claim C9 as amended: in atm_cs_forcing the TOA clear-sky shortwave
forcing is computed as all_sky.swdt - clear_sky.swut (the code relies on
the physical identity SWDT_all = SWDT_clear stated in its comment), so
it equals the spec's clear_sky.swdt - clear_sky.swut exactly when the
two swdt fields coincide; the other three forcing components use
clear-sky fields only. -/
theorem claim_c9_sw_toa_amended (a c : FluxDict)
    (aswdt cswdt cswut clwds clwus cswds cswus clwut : ℚ)
    (h1 : a.lookup "swdt" = some aswdt) (_h2 : c.lookup "swdt" = some cswdt)
    (h3 : c.lookup "swut" = some cswut) (h4 : c.lookup "lwds" = some clwds)
    (h5 : c.lookup "lwus" = some clwus) (h6 : c.lookup "swds" = some cswds)
    (h7 : c.lookup "swus" = some cswus) (h8 : c.lookup "lwut" = some clwut) :
    EnergyBudget.atm_cs_forcing a c = .ok
      { sw_toa := aswdt - cswut, lw_toa := -clwut,
        sw_surf := cswds - cswus, lw_surf := clwds - clwus } ∧
    (aswdt = cswdt →
      EnergyBudget.atm_cs_forcing a c = .ok
        { sw_toa := cswdt - cswut, lw_toa := -clwut,
          sw_surf := cswds - cswus, lw_surf := clwds - clwus }) := by
  constructor
  · exact atm_cs_forcing_spec a c aswdt cswut clwds clwus cswds cswus clwut
      h1 h3 h4 h5 h6 h7 h8
  · intro hh
    rw [← hh]
    exact atm_cs_forcing_spec a c aswdt cswut clwds clwus cswds cswus clwut
      h1 h3 h4 h5 h6 h7 h8

/-- Witness for the amended C9 on concrete dicts. -/
theorem claim_c9_sw_toa_amended_witness :
    EnergyBudget.atm_cs_forcing [("swdt", 340)]
      [("swdt", 341), ("swut", 100), ("lwds", 320), ("lwus", 392), ("swds", 210),
       ("swus", 25), ("lwut", 269)] = .ok
      { sw_toa := 340 - 100, lw_toa := -269,
        sw_surf := 210 - 25, lw_surf := 320 - 392 } ∧
    ((340 : ℚ) = 341 →
      EnergyBudget.atm_cs_forcing [("swdt", 340)]
        [("swdt", 341), ("swut", 100), ("lwds", 320), ("lwus", 392), ("swds", 210),
         ("swus", 25), ("lwut", 269)] = .ok
        { sw_toa := 341 - 100, lw_toa := -269,
          sw_surf := 210 - 25, lw_surf := 320 - 392 }) :=
  claim_c9_sw_toa_amended [("swdt", 340)]
    [("swdt", 341), ("swut", 100), ("lwds", 320), ("lwus", 392), ("swds", 210),
     ("swus", 25), ("lwut", 269)]
    340 341 100 320 392 210 25 269
    (by decide) (by decide) (by decide) (by decide)
    (by decide) (by decide) (by decide) (by decide)

/-- Claim C4: for every constant field (all entries equal to c) paired
with a latitude array of the same length whose cosine weights have a
nonzero trapezoidal integral (the claim's non-degeneracy condition,
which forces at least two points), calc_global_mean returns exactly c. -/
theorem claim_c4_constant_field (data lat : List ℝ) (c : ℝ)
    (hlen : data.length = lat.length)
    (hconst : ∀ v ∈ data, v = c)
    (hA : trapzSum (weightsOf lat) (latRads lat) ≠ 0) :
    calc_global_mean data lat = .ok (.val c) := by
  unfold calc_global_mean
  rw [npTrapz_of_eq_length _ _ (by rw [weightsOf_length, latRads_length]), ok_bind]
  have hmul : npMul data (weightsOf lat) = .ok ((weightsOf lat).map (fun v => c * v)) := by
    unfold npMul
    rw [if_pos (by rw [hlen, weightsOf_length])]
    rw [zipWith_mul_const c data (weightsOf lat) (by rw [hlen, weightsOf_length]) hconst]
  rw [hmul, ok_bind]
  rw [npTrapz_of_eq_length _ _ (by rw [List.length_map, weightsOf_length, latRads_length]),
    ok_bind]
  rw [trapzSum_const_mul]
  rw [if_neg hA]
  rw [mul_div_assoc, div_self hA, mul_one]
  rfl

/-- Witness for C4: the constant field 5 over the grid [0, 90]. -/
theorem claim_c4_constant_field_witness :
    calc_global_mean [5, 5] [0, 90] = .ok (.val 5) :=
  claim_c4_constant_field [5, 5] [0, 90] 5 (by simp)
    (by intro v hv; simpa using hv) area_01_ne

/-- Claim C8: calc_global_mean is invariant under simultaneously
reversing the field and the latitude array (both trapezoidal integrals
change sign, cancelling in the quotient; a zero area weight yields the
same non-finite outcome on both sides). -/
theorem claim_c8_reverse_invariant (data lat : List ℝ)
    (hlen : data.length = lat.length) :
    calc_global_mean data.reverse lat.reverse = calc_global_mean data lat := by
  unfold calc_global_mean
  have hwrev : weightsOf lat.reverse = (weightsOf lat).reverse := by
    simp [weightsOf, latRads, List.map_reverse]
  have hlrev : latRads lat.reverse = (latRads lat).reverse := by
    simp [latRads, List.map_reverse]
  rw [hwrev, hlrev]
  rw [npTrapz_of_eq_length _ _ (by simp [weightsOf_length, latRads_length]), ok_bind]
  rw [npTrapz_of_eq_length _ _ (by simp [weightsOf_length, latRads_length]), ok_bind]
  rw [trapzSum_reverse _ _ (by rw [weightsOf_length, latRads_length])]
  have hmul : npMul data.reverse (weightsOf lat).reverse =
      .ok ((List.zipWith (fun u v => u * v) data (weightsOf lat)).reverse) := by
    unfold npMul
    rw [if_pos (by simp [hlen, weightsOf_length])]
    rw [← List.reverse_zipWith (by rw [hlen, weightsOf_length])]
  rw [hmul, ok_bind]
  have hmul2 : npMul data (weightsOf lat) =
      .ok (List.zipWith (fun u v => u * v) data (weightsOf lat)) := by
    unfold npMul
    rw [if_pos (by rw [hlen, weightsOf_length])]
  rw [hmul2, ok_bind]
  rw [npTrapz_of_eq_length _ _
    (by simp [List.length_zipWith, hlen, weightsOf_length, latRads_length])]
  rw [npTrapz_of_eq_length _ _
    (by simp [List.length_zipWith, hlen, weightsOf_length, latRads_length])]
  rw [ok_bind, ok_bind]
  rw [trapzSum_reverse _ _
    (by simp [List.length_zipWith, hlen, weightsOf_length, latRads_length])]
  by_cases hA : trapzSum (weightsOf lat) (latRads lat) = 0
  · rw [if_pos hA, if_pos (by rw [hA, neg_zero])]
  · rw [if_neg hA, if_neg (by simpa using hA)]
    rw [neg_div_neg_eq]

/-- Witness for C8 on a concrete two-point grid. -/
theorem claim_c8_reverse_invariant_witness :
    calc_global_mean ([1, 2] : List ℝ).reverse ([0, 90] : List ℝ).reverse =
      calc_global_mean [1, 2] [0, 90] :=
  claim_c8_reverse_invariant [1, 2] [0, 90] (by simp)

/-- Helper: a one-point latitude grid has a zero trapezoidal area
weight. -/
theorem area_single_zero : trapzSum (weightsOf [0]) (latRads [0]) = 0 := by
  simp [weightsOf, latRads, degToRad_zero, trapzSum, pairAvgs, diffs]

/-- Claim C6 counterexample: calc_global_mean does not fail on a length
mismatch when the field has length 1 (numpy broadcasting produces the
finite answer 5), and with a single latitude point it returns normally
with the non-finite 0/0 float instead of raising any error: neither a
ShapeMismatch nor a DegenerateInput failure exists in the code. -/
theorem claim_c6_counterexample :
    calc_global_mean [5] [0, 90] = .ok (.val 5) ∧
    calc_global_mean [5] [0] = .ok .nonfinite := by
  constructor
  · unfold calc_global_mean
    rw [npTrapz_of_eq_length _ _ (by rw [weightsOf_length, latRads_length]), ok_bind]
    have hmul : npMul [5] (weightsOf [0, 90]) = .ok [5, 0] := by
      rw [weights_01]
      unfold npMul
      norm_num
    rw [hmul, ok_bind]
    rw [npTrapz_of_eq_length _ _ (by rw [latRads_length]; rfl), ok_bind]
    rw [if_neg area_01_ne]
    rw [area_01, lr_01]
    have hI : trapzSum [5, 0] [0, Real.pi / 2] = 5 * (Real.pi / 4) := by
      simp [trapzSum, pairAvgs, diffs]
      ring
    rw [hI, pure_eq_ok]
    have hq : 5 * (Real.pi / 4) / (Real.pi / 4) = 5 := by
      rw [mul_div_assoc, div_self (by positivity), mul_one]
    rw [hq]
  · unfold calc_global_mean
    have hw : weightsOf [0] = [1] := by
      simp [weightsOf, latRads, degToRad_zero]
    have hl : latRads [0] = [0] := by simp [latRads, degToRad_zero]
    rw [hw, hl]
    rw [npTrapz_of_eq_length [1] [(0 : ℝ)] rfl, ok_bind]
    have hmul : npMul [5] [1] = .ok [5] := by unfold npMul; norm_num
    rw [hmul, ok_bind]
    rw [npTrapz_of_eq_length [5] [(0 : ℝ)] rfl, ok_bind]
    have hA : trapzSum [1] [(0 : ℝ)] = 0 := by simp [trapzSum, pairAvgs, diffs]
    rw [hA, if_pos rfl, pure_eq_ok]

/-- Helper: adjacent differences of a list with fewer than two entries
are empty (np.trapz sees no integration interval). -/
theorem diffs_short (x : List ℝ) (h : x.length ≤ 1) : diffs x = [] := by
  rcases x with _ | ⟨a, _ | ⟨b, t⟩⟩
  · rfl
  · rfl
  · simp at h

/-- Helper: the trapezoidal sum over fewer than two sample points is
zero. -/
theorem trapzSum_short (y x : List ℝ) (h : x.length ≤ 1) : trapzSum y x = 0 := by
  unfold trapzSum
  rw [diffs_short x h]
  simp

/-- Helper: mapping a function over a successful Except value. -/
theorem emap_ok {ε α β : Type} (f : α → β) (a : α) :
    (Except.ok a : Except ε α).map f = .ok (f a) := rfl

/-- Helper: np.trapz over a single sample point with at most two data
entries broadcasts the empty diff array against at most one pair
average and returns zero rather than failing. -/
theorem npTrapz_ok_small (y x : List ℝ) (hx : x.length ≤ 1) (hy : y.length ≤ 2) :
    npTrapz y x = .ok 0 := by
  unfold npTrapz npMul
  rw [diffs_short x hx]
  by_cases h1 : (pairAvgs y).length = 0
  · rw [if_pos (by simpa using h1)]
    simp [emap_ok]
  · rw [if_neg (by simpa using h1), if_pos (by have := pairAvgs_length y; omega)]
    simp [emap_ok]

/-- Claim C6 as amended: calc_global_mean performs no validation and
raises no typed errors.  When the field and latitude lengths differ and
neither is 1, the element-wise product raises numpy's broadcast
ValueError; when the latitude has a single point and the field at least
three entries, the product broadcasts but the second trapz then raises
the broadcast ValueError; a single-point latitude with at most two
field entries, and equal-length inputs whose cosine weights integrate
to zero (which covers every grid with fewer than two points), yield the
non-finite float of a zero-denominator division normally instead of
failing; and a length-1 field broadcasts against any latitude array and
never raises at all. -/
theorem claim_c6_failure_modes_amended :
    (∀ data lat : List ℝ, data.length ≠ lat.length → data.length ≠ 1 →
      lat.length ≠ 1 → calc_global_mean data lat = .error .valueError) ∧
    (∀ data lat : List ℝ, lat.length = 1 → 3 ≤ data.length →
      calc_global_mean data lat = .error .valueError) ∧
    (∀ data lat : List ℝ, lat.length = 1 → data.length ≤ 2 →
      calc_global_mean data lat = .ok .nonfinite) ∧
    (∀ data lat : List ℝ, data.length = lat.length →
      trapzSum (weightsOf lat) (latRads lat) = 0 →
      calc_global_mean data lat = .ok .nonfinite) ∧
    (∀ data lat : List ℝ, data.length = 1 →
      ∃ o : GmOutcome, calc_global_mean data lat = .ok o) := by
  refine ⟨?_, ?_, ?_, ?_, ?_⟩
  · intro data lat h1 h2 h3
    unfold calc_global_mean
    rw [npTrapz_of_eq_length _ _ (by rw [weightsOf_length, latRads_length]), ok_bind]
    have hmul : npMul data (weightsOf lat) = .error .valueError := by
      unfold npMul
      rw [if_neg (by rw [weightsOf_length]; exact h1), if_neg h2,
        if_neg (by rw [weightsOf_length]; exact h3)]
    rw [hmul, error_bind]
  · intro data lat hm hd
    unfold calc_global_mean
    rw [npTrapz_of_eq_length _ _ (by rw [weightsOf_length, latRads_length]), ok_bind]
    have hw1 : (weightsOf lat).length = 1 := by rw [weightsOf_length, hm]
    have hmul : npMul data (weightsOf lat) =
        .ok (data.map (fun u => u * (weightsOf lat).headI)) := by
      unfold npMul
      rw [if_neg (by omega), if_neg (by omega), if_pos hw1]
    rw [hmul, ok_bind]
    have hpa : (pairAvgs (data.map (fun u => u * (weightsOf lat).headI))).length =
        data.length - 1 := by
      rw [pairAvgs_length, List.length_map]
    have htz : npTrapz (data.map (fun u => u * (weightsOf lat).headI)) (latRads lat) =
        .error .valueError := by
      unfold npTrapz npMul
      rw [diffs_short _ (by rw [latRads_length, hm])]
      rw [if_neg (by simp only [hpa, List.length_nil]; omega),
        if_neg (by simp only [hpa]; omega), if_neg (by simp)]
      rfl
    rw [htz, error_bind]
  · intro data lat hm hd
    unfold calc_global_mean
    rw [npTrapz_of_eq_length _ _ (by rw [weightsOf_length, latRads_length]), ok_bind]
    have hA : trapzSum (weightsOf lat) (latRads lat) = 0 :=
      trapzSum_short _ _ (by rw [latRads_length, hm])
    have hdw : ∃ dw : List ℝ, npMul data (weightsOf lat) = .ok dw ∧ dw.length ≤ 2 := by
      unfold npMul
      by_cases h1 : data.length = (weightsOf lat).length
      · rw [if_pos h1]
        refine ⟨_, rfl, ?_⟩
        rw [List.length_zipWith, h1, Nat.min_self, weightsOf_length, hm]
        omega
      · by_cases h2 : data.length = 1
        · rw [if_neg h1, if_pos h2]
          exact ⟨_, rfl, by rw [List.length_map, weightsOf_length, hm]; omega⟩
        · rw [if_neg h1, if_neg h2, if_pos (by rw [weightsOf_length, hm])]
          exact ⟨_, rfl, by rw [List.length_map]; exact hd⟩
    obtain ⟨dw, hdweq, hdwlen⟩ := hdw
    rw [hdweq, ok_bind]
    rw [npTrapz_ok_small dw (latRads lat) (by rw [latRads_length, hm]) hdwlen, ok_bind]
    rw [if_pos hA, pure_eq_ok]
  · intro data lat hlen hA
    unfold calc_global_mean
    rw [npTrapz_of_eq_length _ _ (by rw [weightsOf_length, latRads_length]), ok_bind]
    have hmul : npMul data (weightsOf lat) =
        .ok (List.zipWith (fun u v => u * v) data (weightsOf lat)) := by
      unfold npMul
      rw [if_pos (by rw [hlen, weightsOf_length])]
    rw [hmul, ok_bind]
    rw [npTrapz_of_eq_length _ _
      (by simp [List.length_zipWith, hlen, weightsOf_length, latRads_length]), ok_bind]
    rw [if_pos hA, pure_eq_ok]
  · intro data lat hd
    unfold calc_global_mean
    rw [npTrapz_of_eq_length _ _ (by rw [weightsOf_length, latRads_length]), ok_bind]
    have hdw : ∃ dw : List ℝ, npMul data (weightsOf lat) = .ok dw ∧
        dw.length = lat.length := by
      unfold npMul
      by_cases h1 : data.length = (weightsOf lat).length
      · rw [if_pos h1]
        exact ⟨_, rfl, by rw [List.length_zipWith, h1, Nat.min_self, weightsOf_length]⟩
      · rw [if_neg h1, if_pos hd]
        exact ⟨_, rfl, by rw [List.length_map, weightsOf_length]⟩
    obtain ⟨dw, hdweq, hdwlen⟩ := hdw
    rw [hdweq, ok_bind]
    rw [npTrapz_of_eq_length _ _ (by rw [hdwlen, latRads_length]), ok_bind]
    by_cases hA : trapzSum (weightsOf lat) (latRads lat) = 0
    · rw [if_pos hA]
      exact ⟨.nonfinite, rfl⟩
    · rw [if_neg hA]
      exact ⟨_, rfl⟩

/-- Witness for the amended C6: a 3-vs-2 mismatch raises the broadcast
error in the product; a 3-entry field over a single latitude point
raises it in the second trapz; 2-entry and 1-entry fields over a single
point yield the non-finite quotient; and a length-1 field over a
2-point grid succeeds despite the mismatch. -/
theorem claim_c6_failure_modes_amended_witness :
    calc_global_mean [1, 2, 3] [0, 90] = .error .valueError ∧
    calc_global_mean [1, 2, 3] [0] = .error .valueError ∧
    calc_global_mean [7, 8] [0] = .ok .nonfinite ∧
    calc_global_mean [7] [0] = .ok .nonfinite ∧
    (∃ o : GmOutcome, calc_global_mean [5] [0, 90] = .ok o) :=
  ⟨claim_c6_failure_modes_amended.1 [1, 2, 3] [0, 90]
      (by norm_num) (by norm_num) (by norm_num),
   claim_c6_failure_modes_amended.2.1 [1, 2, 3] [0] (by norm_num) (by norm_num),
   claim_c6_failure_modes_amended.2.2.1 [7, 8] [0] (by norm_num) (by norm_num),
   claim_c6_failure_modes_amended.2.2.2.1 [7] [0] (by norm_num) area_single_zero,
   claim_c6_failure_modes_amended.2.2.2.2 [5] [0, 90] (by norm_num)⟩

/-- Helper: an if-then-else of store-preserving computations preserves
the store. -/
theorem preserves_ite {σ α : Type} (c : Prop) [inst : Decidable c] (m1 m2 : PyM σ α)
    (h1 : Preserves m1) (h2 : Preserves m2) : Preserves (if c then m1 else m2) := by
  cases inst with
  | isTrue hc => exact h1
  | isFalse hc => exact h2

/-- Claim C10 (implicit frame property): compute_cre,
compute_energy_budget and calc_global_mean never mutate their inputs:
rerun over an explicit store holding the input dictionaries (and the
field/latitude arrays), every successful run returns the store exactly
as it received it, every access being a read; the diagnostics are
records freshly constructed from the values read. -/
theorem claim_c10_inputs_unchanged :
    Preserves compute_cre_st ∧ Preserves compute_energy_budget_st ∧
    Preserves calc_global_mean_st := by
  refine ⟨?_, ?_, ?_⟩
  · unfold compute_cre_st
    repeat
      first
      | exact preserves_readAllSky _
      | exact preserves_readClearSky _
      | exact preserves_pure _
      | refine preserves_bind _ _ ?_ fun v => ?_
  · unfold compute_energy_budget_st
    repeat
      first
      | exact preserves_readKey _
      | exact preserves_liftE _
      | exact preserves_pure _
      | refine preserves_bind _ _ ?_ fun v => ?_
  · unfold calc_global_mean_st
    repeat
      first
      | exact preserves_readData
      | exact preserves_readLat
      | exact preserves_liftE _
      | exact preserves_pure _
      | exact preserves_ite _ _ _ (preserves_pure _) (preserves_pure _)
      | refine preserves_bind _ _ ?_ fun v => ?_

/-- Witness for C10: a concrete successful run of the store-threaded
compute_cre hands back the two input dicts unchanged. -/
theorem claim_c10_inputs_unchanged_witness :
    compute_cre_st.run
      ([("lwut", 239), ("swut", 150), ("swdt", 340), ("lwds", 340),
        ("lwus", 390), ("swds", 190), ("swus", 20)],
       [("lwut", 269), ("swut", 100), ("swdt", 340), ("lwds", 320),
        ("lwus", 392), ("swds", 210), ("swus", 25)]) =
      .ok ({ lwcre := 269 - 239, swcre := 100 - 150, cre := (269 - 239) + (100 - 150),
             lwcre_surf := 340 - 320 - 390 + 392, swcre_surf := 190 - 210 - 20 + 25,
             cre_surf := (340 - 320 - 390 + 392) + (190 - 210 - 20 + 25),
             alwcre := (269 - 239) - (340 - 320 - 390 + 392),
             aswcre := (100 - 150) - (190 - 210 - 20 + 25),
             acre := ((269 - 239) - (340 - 320 - 390 + 392)) +
               ((100 - 150) - (190 - 210 - 20 + 25)) },
           ([("lwut", 239), ("swut", 150), ("swdt", 340), ("lwds", 340),
             ("lwus", 390), ("swds", 190), ("swus", 20)],
            [("lwut", 269), ("swut", 100), ("swdt", 340), ("lwds", 320),
             ("lwus", 392), ("swds", 210), ("swus", 25)])) ∧
    (([("lwut", 239), ("swut", 150), ("swdt", 340), ("lwds", 340),
       ("lwus", 390), ("swds", 190), ("swus", 20)],
      [("lwut", 269), ("swut", 100), ("swdt", 340), ("lwds", 320),
       ("lwus", 392), ("swds", 210), ("swus", 25)]) :
      FluxDict × FluxDict) =
     ([("lwut", 239), ("swut", 150), ("swdt", 340), ("lwds", 340),
       ("lwus", 390), ("swds", 190), ("swus", 20)],
      [("lwut", 269), ("swut", 100), ("swdt", 340), ("lwds", 320),
       ("lwus", 392), ("swds", 210), ("swus", 25)]) :=
  ⟨rfl, claim_c10_inputs_unchanged.1 _ _ _ rfl⟩
